import Mathlib

/-!
Shallow embedding of the head-pose estimation and smoothed transform pipeline
of the hat try-on repository (source files `src/js/utils.js`,
`src/js/hat-renderer.js`, and the main/MediaPipe module).

JS numbers are modelled as real numbers (`ℝ`); the nullable "absent" sentinel
of the smoothed state is modelled as `Option`; a JS exception escaping a
function is modelled as `Except.error`.
-/

noncomputable section

/-- A 3D point `{x, y, z}` with real components, as produced by the tracker
and consumed throughout the pipeline. -/
structure Vec3 where
  x : ℝ
  y : ℝ
  z : ℝ

namespace Utils

/-- `Utils.smooth(current, previous, factor)` from `src/js/utils.js` lines
13-16. The JS guard `previous === null || previous === undefined` is the
`none` case of the `Option`; a numeric previous (including `0`) is `some`.
The factor is an arbitrary real: the source performs no clamping. -/
def smooth (current : ℝ) (previous : Option ℝ) (factor : ℝ) : ℝ :=
  match previous with
  | none => current
  | some p => p * factor + current * (1 - factor)

/-- `Utils.smooth3D(current, previous, factor)` from `src/js/utils.js` lines
25-32: the JS falsy test `!previous` on an object is the `none` case; a
present previous vector is smoothed component-wise via `smooth`. -/
def smooth3D (current : Vec3) (previous : Option Vec3) (factor : ℝ) : Vec3 :=
  match previous with
  | none => current
  | some p =>
      ⟨smooth current.x (some p.x) factor,
       smooth current.y (some p.y) factor,
       smooth current.z (some p.z) factor⟩

/-- `Utils.distance3D(p1, p2)` from `src/js/utils.js` lines 40-45. The JS
defaulting `(p.z || 0)` is the identity on real-valued `z` (for `z = 0` the
default is also `0`), so it is dropped here where every landmark carries a
numeric `z`. -/
def distance3D (p1 p2 : Vec3) : ℝ :=
  Real.sqrt ((p2.x - p1.x) * (p2.x - p1.x) + (p2.y - p1.y) * (p2.y - p1.y) +
    (p2.z - p1.z) * (p2.z - p1.z))

end Utils

/-- `Math.atan2(y, x)` over the reals. Matches the JS definition on every
real input; `ℝ` has no signed zero, so the JS distinction between `+0` and
`-0` arguments collapses to the single value `0` (with `atan2 0 0 = 0`,
as JS gives for `atan2(+0, +0)`). -/
def atan2 (y x : ℝ) : ℝ :=
  if 0 < x then Real.arctan (y / x)
  else if x < 0 then
    (if 0 ≤ y then Real.arctan (y / x) + Real.pi else Real.arctan (y / x) - Real.pi)
  else
    (if 0 < y then Real.pi / 2 else if y < 0 then -(Real.pi / 2) else 0)

/-- Head orientation `{pitch, yaw, roll}` in radians, as returned by
`MediaPipeHandler.calculateHeadRotation`. -/
structure Rotation where
  pitch : ℝ
  yaw : ℝ
  roll : ℝ

namespace MediaPipeHandler

/-- Landmark role→index table bound in the `MediaPipeHandler` constructor
(`this.landmarks.noseTip = 1`). -/
def noseTipIdx : Nat := 1

/-- Role index `this.landmarks.foreheadTop = 10`. -/
def foreheadTopIdx : Nat := 10

/-- Role index `this.landmarks.chin = 152`. -/
def chinIdx : Nat := 152

/-- Role index `this.landmarks.leftEye = 33`. -/
def leftEyeIdx : Nat := 33

/-- Role index `this.landmarks.rightEye = 263`. -/
def rightEyeIdx : Nat := 263

/-- Role index `this.landmarks.leftTemple = 127`. -/
def leftTempleIdx : Nat := 127

/-- Role index `this.landmarks.rightTemple = 356`. -/
def rightTempleIdx : Nat := 356

/-- `MediaPipeHandler.calculateHeadRotation(landmarks)`: the arithmetic body
of the source method, as a pure function of the five landmarks it reads.
(The source re-indexes the landmark array for the same five roles that
`extractFaceData` already dereferenced; the lookup is performed once in
`extractFaceData` below, with identical success/failure behaviour.) -/
def calculateHeadRotation (noseTip forehead chin leftEye rightEye : Vec3) : Rotation :=
  let eyeCenterX := (leftEye.x + rightEye.x) / 2
  let eyeCenterZ := (leftEye.z + rightEye.z) / 2
  let yaw := atan2 (noseTip.z - eyeCenterZ) (noseTip.x - eyeCenterX) - Real.pi / 2
  let faceVertical := chin.y - forehead.y
  let faceDepth := noseTip.z - (forehead.z + chin.z) / 2
  let pitch := atan2 faceDepth faceVertical
  let roll := atan2 (rightEye.y - leftEye.y) (rightEye.x - leftEye.x)
  ⟨pitch, yaw, roll⟩

/-- The record returned by `MediaPipeHandler.extractFaceData`. -/
structure ExtractedFace where
  center : Vec3
  headTop : Vec3
  forehead : Vec3
  faceWidth : ℝ
  rotation : Rotation

/-- `MediaPipeHandler.extractFaceData(landmarks)` (lines 464-501). The
landmark array is a partial map from index to point; the source dereferences
properties of every looked-up landmark with no presence check, so a missing
entry (JS `undefined`, here `none`) raises an uncaught TypeError, modelled
as `Except.error ()`. Extraction succeeds exactly when all seven read roles
are present; the nesting order mirrors the constant table, and, as in the
source, any missing role makes the whole call throw. -/
def extractFaceData (lm : Nat → Option Vec3) : Except Unit ExtractedFace :=
  match lm noseTipIdx with
  | none => .error ()
  | some noseTip =>
  match lm foreheadTopIdx with
  | none => .error ()
  | some forehead =>
  match lm chinIdx with
  | none => .error ()
  | some chin =>
  match lm leftEyeIdx with
  | none => .error ()
  | some leftEye =>
  match lm rightEyeIdx with
  | none => .error ()
  | some rightEye =>
  match lm leftTempleIdx with
  | none => .error ()
  | some leftTemple =>
  match lm rightTempleIdx with
  | none => .error ()
  | some rightTemple =>
      .ok
        ⟨⟨(leftEye.x + rightEye.x) / 2, (leftEye.y + rightEye.y) / 2,
          (leftEye.z + rightEye.z) / 2⟩,
         ⟨forehead.x, forehead.y - (chin.y - forehead.y) * 0.3, forehead.z⟩,
         forehead,
         Utils.distance3D leftTemple rightTemple,
         calculateHeadRotation noseTip forehead chin leftEye rightEye⟩

/-- The message handed to `onResults` by `MediaPipeHandler.processResults`
(the `rawLandmarks` passthrough field is omitted: no claim reads it). -/
structure FaceResult where
  detected : Bool
  data : Option ExtractedFace

/-- `MediaPipeHandler.processResults(results)` (lines 443-457): a missing or
empty `multiFaceLandmarks` yields `{detected: false}`; otherwise the first
face is extracted and emitted with `detected: true`. There is no try/catch:
an extraction failure propagates out of the callback. -/
def processResults (multiFaceLandmarks : Option (List (Nat → Option Vec3))) :
    Except Unit FaceResult :=
  match multiFaceLandmarks with
  | none => .ok ⟨false, none⟩
  | some [] => .ok ⟨false, none⟩
  | some (lm :: _) => (extractFaceData lm).map (fun fd => ⟨true, some fd⟩)

/-- Input builder for theorems: a landmark array holding exactly the seven
roles the extractor reads, at the source's role indices. -/
def mkLandmarks (noseTip forehead chin leftEye rightEye leftTemple rightTemple : Vec3) :
    Nat → Option Vec3 :=
  fun i =>
    if i = noseTipIdx then some noseTip
    else if i = foreheadTopIdx then some forehead
    else if i = chinIdx then some chin
    else if i = leftEyeIdx then some leftEye
    else if i = rightEyeIdx then some rightEye
    else if i = leftTempleIdx then some leftTemple
    else if i = rightTempleIdx then some rightTemple
    else none

end MediaPipeHandler

/-- User-adjustable settings from the `HatRenderer` constructor. -/
structure Settings where
  scale : ℝ
  yOffset : ℝ
  zOffset : ℝ
  smoothing : ℝ

/-- The slice of the face-data message read by
`HatRenderer.updateHatPosition`. -/
structure FaceData where
  detected : Bool
  forehead : Vec3
  faceWidth : ℝ
  rotation : Rotation

/-- The per-frame smoothing state owned by `HatRenderer`:
`this.smoothedPosition`, `this.smoothedRotation` (nullable, start `null`)
and `this.smoothedScale` (a plain number, start `1`). -/
structure SmoothedState where
  smoothedPosition : Option Vec3
  smoothedRotation : Option Vec3
  smoothedScale : ℝ

/-- Constructor initialisation of the smoothed state
(`src/js/hat-renderer.js` lines 16-19): position and rotation absent,
scale `1`. -/
def initialSmoothedState : SmoothedState := ⟨none, none, 1⟩

/-- Constructor defaults of `this.settings`
(`src/js/hat-renderer.js` lines 22-27). -/
def defaultSettings : Settings := ⟨1, 0, 0, 0.5⟩

/-- The pose written onto the hat object in a tracking frame. -/
structure HatPose where
  position : Vec3
  rotation : Vec3
  scale : ℝ

/-- What `updateHatPosition` does to the hat object: the visibility flag it
sets, and the pose it writes (`none` in the hidden branch, where the hat's
transform is left untouched). -/
structure HatOutput where
  visible : Bool
  pose : Option HatPose

namespace HatRenderer

/-- `HatRenderer.updateHatPosition(faceData)` (lines 215-278), as a function
from settings, previous smoothed state and face data to the next smoothed
state and the effect on the hat object. The early return for a hat that is
not yet loaded is outside the model: the function models the mapper once a
hat exists. An undetected frame only hides the hat and returns. -/
def updateHatPosition (settings : Settings) (st : SmoothedState) (faceData : FaceData) :
    SmoothedState × HatOutput :=
  match faceData.detected with
  | false => (st, ⟨false, none⟩)
  | true =>
    let smoothing := settings.smoothing
    let sceneX := -(faceData.forehead.x - 0.5) * 2
    let sceneY := -(faceData.forehead.y - 0.5) * 2
    let targetPosition : Vec3 :=
      ⟨sceneX, sceneY + settings.yOffset / 100,
       faceData.forehead.z * 2 + settings.zOffset / 100⟩
    let newPosition := Utils.smooth3D targetPosition st.smoothedPosition smoothing
    let targetRotation : Vec3 :=
      ⟨faceData.rotation.pitch * 0.5, -faceData.rotation.yaw * 0.8, faceData.rotation.roll⟩
    let newRotation := Utils.smooth3D targetRotation st.smoothedRotation smoothing
    let baseScale := faceData.faceWidth * 3 * settings.scale
    let newScale := Utils.smooth baseScale (some st.smoothedScale) smoothing
    (⟨some newPosition, some newRotation, newScale⟩,
     ⟨true, some ⟨newPosition, newRotation, newScale⟩⟩)

end HatRenderer

/-! Theorems. -/

/-- Claim C3: the scalar smoother returns `current` unchanged when the
previous value is absent, and `previous * factor + current * (1 - factor)`
otherwise (so `factor = 0` yields `current` exactly); the factor is an
arbitrary real fed into the same formula without clamping; the 3-vector
smoother applies exactly the scalar rule independently to each of x, y, z. -/
theorem smooth_contract :
    (∀ c f : ℝ, Utils.smooth c none f = c) ∧
    (∀ c p f : ℝ, Utils.smooth c (some p) f = p * f + c * (1 - f)) ∧
    (∀ c p : ℝ, Utils.smooth c (some p) 0 = c) ∧
    (∀ (cur : Vec3) (f : ℝ), Utils.smooth3D cur none f = cur) ∧
    (∀ (cur prev : Vec3) (f : ℝ), Utils.smooth3D cur (some prev) f =
      ⟨Utils.smooth cur.x (some prev.x) f, Utils.smooth cur.y (some prev.y) f,
       Utils.smooth cur.z (some prev.z) f⟩) := by
  refine ⟨fun c f => rfl, fun c p f => rfl, fun c p => ?_, fun cur f => rfl,
    fun cur prev f => rfl⟩
  show p * 0 + c * (1 - 0) = c
  ring

/-- Claim C8: for a present previous value and a factor in [0,1], the
smoothed value is a convex combination of previous and current, hence lies
between them inclusive. -/
theorem smooth_convex (p c f : ℝ) (h0 : 0 ≤ f) (h1 : f ≤ 1) :
    min p c ≤ Utils.smooth c (some p) f ∧ Utils.smooth c (some p) f ≤ max p c := by
  have hs : Utils.smooth c (some p) f = p * f + c * (1 - f) := rfl
  rw [hs]
  constructor
  · rcases le_total p c with h | h
    · rw [min_eq_left h]; nlinarith
    · rw [min_eq_right h]; nlinarith
  · rcases le_total p c with h | h
    · rw [max_eq_right h]; nlinarith
    · rw [max_eq_left h]; nlinarith

/-- Witness for C8 at previous 1, current 3, factor 1/2. -/
theorem smooth_convex_witness :
    (0 : ℝ) ≤ 1 / 2 ∧ (1 / 2 : ℝ) ≤ 1 ∧
    (min 1 3 ≤ Utils.smooth 3 (some 1) (1 / 2) ∧
      Utils.smooth 3 (some 1) (1 / 2) ≤ max 1 3) :=
  ⟨by norm_num, by norm_num, smooth_convex 1 3 (1 / 2) (by norm_num) (by norm_num)⟩

/-- Claim C10: a previous value of exactly 0 takes the blend branch, not the
snap branch: `smooth(current, 0, factor) = 0 * factor + current * (1 - factor)
= current * (1 - factor)` for every current and factor. -/
theorem smooth_zero_previous_blends (c f : ℝ) :
    Utils.smooth c (some 0) f = c * (1 - f) := by
  show (0 : ℝ) * f + c * (1 - f) = c * (1 - f)
  ring

/-- Claim C2: an undetected frame makes `updateHatPosition` hide the hat
(`visible = false`, no pose write) and leave the whole smoothed state exactly
equal to its pre-call value, for every settings and every prior state — so a
later detected frame resumes from this preserved state, and snaps only where
that state was never set (`none`). -/
theorem updateHatPosition_undetected (settings : Settings) (st : SmoothedState)
    (fh : Vec3) (fw : ℝ) (rot : Rotation) :
    HatRenderer.updateHatPosition settings st ⟨false, fh, fw, rot⟩ =
      (st, ⟨false, none⟩) := rfl

/-- Claim C4: a detected frame computes the target position
`(-(fh.x - 0.5) * 2, -(fh.y - 0.5) * 2 + yOffset/100, fh.z * 2 + zOffset/100)`,
the target rotation `(pitch * 0.5, -yaw * 0.8, roll)` and the base scale
`faceWidth * 3 * scale`, smooths each against the previous smoothed state
with the smoothing setting, persists all three, and emits them with
`visible = true`. -/
theorem updateHatPosition_tracking (settings : Settings) (st : SmoothedState)
    (fh : Vec3) (fw : ℝ) (rot : Rotation) :
    HatRenderer.updateHatPosition settings st ⟨true, fh, fw, rot⟩ =
      (let targetPosition : Vec3 :=
        ⟨-(fh.x - 0.5) * 2, -(fh.y - 0.5) * 2 + settings.yOffset / 100,
         fh.z * 2 + settings.zOffset / 100⟩
       let targetRotation : Vec3 := ⟨rot.pitch * 0.5, -rot.yaw * 0.8, rot.roll⟩
       let baseScale := fw * 3 * settings.scale
       let p := Utils.smooth3D targetPosition st.smoothedPosition settings.smoothing
       let r := Utils.smooth3D targetRotation st.smoothedRotation settings.smoothing
       let s := Utils.smooth baseScale (some st.smoothedScale) settings.smoothing
       (⟨some p, some r, s⟩, ⟨true, some ⟨p, r, s⟩⟩)) := rfl

/-- Claim C1 is false on the code: with the default settings
(smoothing 0.5, scale 1) and the constructor's initial smoothed state, a
first detected frame with faceWidth 1 has raw base scale 1 * 3 * 1 = 3, yet
the emitted smoothed scale is 2, because the initial smoothedScale is the
number 1 (not an absent value), so the blend 1 * 0.5 + 3 * 0.5 is applied
rather than a snap. -/
theorem first_frame_scale_counterexample :
    (HatRenderer.updateHatPosition defaultSettings initialSmoothedState
        ⟨true, ⟨0.5, 0.5, 0⟩, 1, ⟨0, 0, 0⟩⟩).2.pose.map HatPose.scale = some 2 ∧
    (1 : ℝ) * 3 * defaultSettings.scale = 3 ∧ (2 : ℝ) ≠ 3 := by
  refine ⟨?_, by norm_num [defaultSettings], by norm_num⟩
  show some ((1 : ℝ) * 0.5 + 1 * 3 * 1 * (1 - 0.5)) = some 2
  norm_num

/-- Claim C1, amended: on the first detected frame from the initial state,
position and rotation snap to their raw targets (their state starts absent),
but the emitted smoothed scale is the blend
`1 * smoothing + baseScale * (1 - smoothing)` — the scale state starts at
the number 1, not absent, so the smoothing blend is applied and the output
equals the raw base scale exactly only when smoothing is 0 (or the base
scale is already 1). -/
theorem first_frame_scale_blends (settings : Settings) (fh : Vec3) (fw : ℝ)
    (rot : Rotation) :
    (HatRenderer.updateHatPosition settings initialSmoothedState
        ⟨true, fh, fw, rot⟩).2.pose.map HatPose.scale =
      some (1 * settings.smoothing + fw * 3 * settings.scale * (1 - settings.smoothing)) ∧
    (HatRenderer.updateHatPosition settings initialSmoothedState
        ⟨true, fh, fw, rot⟩).2.pose.map HatPose.position =
      some ⟨-(fh.x - 0.5) * 2, -(fh.y - 0.5) * 2 + settings.yOffset / 100,
            fh.z * 2 + settings.zOffset / 100⟩ ∧
    (HatRenderer.updateHatPosition settings initialSmoothedState
        ⟨true, fh, fw, rot⟩).2.pose.map HatPose.rotation =
      some ⟨rot.pitch * 0.5, -rot.yaw * 0.8, rot.roll⟩ :=
  ⟨rfl, rfl, rfl⟩

/-- Claim C6: for a landmark array holding the required roles, the extracted
rotation is exactly the atan2 formulas of the source: yaw from the nose tip
against the x/z eye midpoint minus π/2, pitch from face depth against the
chin-to-forehead vertical span, roll from the eye-line slope. -/
theorem extracted_rotation_formulas
    (noseTip forehead chin leftEye rightEye leftTemple rightTemple : Vec3) :
    (MediaPipeHandler.extractFaceData
        (MediaPipeHandler.mkLandmarks noseTip forehead chin leftEye rightEye
          leftTemple rightTemple)).map MediaPipeHandler.ExtractedFace.rotation =
      .ok ⟨atan2 (noseTip.z - (forehead.z + chin.z) / 2) (chin.y - forehead.y),
           atan2 (noseTip.z - (leftEye.z + rightEye.z) / 2)
             (noseTip.x - (leftEye.x + rightEye.x) / 2) - Real.pi / 2,
           atan2 (rightEye.y - leftEye.y) (rightEye.x - leftEye.x)⟩ := rfl

/-- Claim C9: for a landmark array holding the required roles, the extracted
faceWidth is the Euclidean 3D distance between the temples, and extracting
from the array with the two temple landmarks swapped yields the same
faceWidth. -/
theorem extracted_faceWidth_symm
    (noseTip forehead chin leftEye rightEye leftTemple rightTemple : Vec3) :
    (MediaPipeHandler.extractFaceData
        (MediaPipeHandler.mkLandmarks noseTip forehead chin leftEye rightEye
          leftTemple rightTemple)).map MediaPipeHandler.ExtractedFace.faceWidth =
      .ok (Utils.distance3D leftTemple rightTemple) ∧
    (MediaPipeHandler.extractFaceData
        (MediaPipeHandler.mkLandmarks noseTip forehead chin leftEye rightEye
          rightTemple leftTemple)).map MediaPipeHandler.ExtractedFace.faceWidth =
      (MediaPipeHandler.extractFaceData
        (MediaPipeHandler.mkLandmarks noseTip forehead chin leftEye rightEye
          leftTemple rightTemple)).map MediaPipeHandler.ExtractedFace.faceWidth := by
  constructor
  · rfl
  · show Except.ok (Utils.distance3D rightTemple leftTemple) =
      Except.ok (Utils.distance3D leftTemple rightTemple)
    have hd : Utils.distance3D rightTemple leftTemple =
        Utils.distance3D leftTemple rightTemple := by
      unfold Utils.distance3D
      ring_nf
    rw [hd]

/-- Claim C5 is false on the code: a frame presented as detected (non-empty
face list) whose landmark array is missing the nose tip (here: missing every
role) makes extraction throw, and `processResults` propagates the error
instead of emitting an undetected result — there is no `MissingLandmark`
handling and no fail-safe to the hidden state. -/
theorem missing_landmark_counterexample :
    MediaPipeHandler.extractFaceData (fun _ => none) = .error () ∧
    MediaPipeHandler.processResults (some [fun _ => none]) = .error () ∧
    MediaPipeHandler.processResults (some [fun _ => none]) ≠
      .ok ⟨false, none⟩ := by
  refine ⟨rfl, rfl, ?_⟩
  intro h
  exact Except.noConfusion h

/-- Claim C5, amended: if any required role (nose tip, forehead-top, chin,
left/right eye, left/right temple) is missing from a detected frame's
landmark array, extraction fails with an uncaught error (the unchecked
property access of the source), and the orchestration does not convert the
frame to an undetected result: `processResults` returns the error itself. -/
theorem missing_landmark_uncaught (lm : Nat → Option Vec3)
    (h : lm MediaPipeHandler.noseTipIdx = none ∨
         lm MediaPipeHandler.foreheadTopIdx = none ∨
         lm MediaPipeHandler.chinIdx = none ∨
         lm MediaPipeHandler.leftEyeIdx = none ∨
         lm MediaPipeHandler.rightEyeIdx = none ∨
         lm MediaPipeHandler.leftTempleIdx = none ∨
         lm MediaPipeHandler.rightTempleIdx = none) :
    MediaPipeHandler.extractFaceData lm = .error () ∧
    MediaPipeHandler.processResults (some [lm]) = .error () := by
  have he : MediaPipeHandler.extractFaceData lm = .error () := by
    unfold MediaPipeHandler.extractFaceData
    cases h1 : lm MediaPipeHandler.noseTipIdx <;>
      cases h2 : lm MediaPipeHandler.foreheadTopIdx <;>
      cases h3 : lm MediaPipeHandler.chinIdx <;>
      cases h4 : lm MediaPipeHandler.leftEyeIdx <;>
      cases h5 : lm MediaPipeHandler.rightEyeIdx <;>
      cases h6 : lm MediaPipeHandler.leftTempleIdx <;>
      cases h7 : lm MediaPipeHandler.rightTempleIdx <;>
      simp_all
  refine ⟨he, ?_⟩
  show (MediaPipeHandler.extractFaceData lm).map _ = .error ()
  rw [he]
  rfl

/-- Witness for the amended C5 at the all-absent landmark array. -/
theorem missing_landmark_uncaught_witness :
    (fun _ : Nat => (none : Option Vec3)) MediaPipeHandler.noseTipIdx = none ∧
    (MediaPipeHandler.extractFaceData (fun _ => none) = .error () ∧
      MediaPipeHandler.processResults (some [fun _ => none]) = .error ()) :=
  ⟨rfl, missing_landmark_uncaught (fun _ => none) (Or.inl rfl)⟩

/-- Helper: the source's atan2 at y = 0 is 0 for a nonnegative x. -/
theorem atan2_zero_left_of_nonneg (x : ℝ) (hx : 0 ≤ x) : atan2 0 x = 0 := by
  rcases lt_or_eq_of_le hx with hlt | heq
  · unfold atan2
    rw [if_pos hlt, zero_div, Real.arctan_zero]
  · unfold atan2
    rw [if_neg (by rw [← heq]; exact lt_irrefl 0),
      if_neg (by rw [← heq]; exact lt_irrefl 0),
      if_neg (lt_irrefl 0), if_neg (lt_irrefl 0)]

/-- Claim C7 is false on the code: with equal eye y-coordinates but the
right-eye landmark left of the left-eye one (rightEye.x < leftEye.x), the
roll is `atan2(0, negative) = π`, not 0. -/
theorem roll_zero_counterexample :
    (MediaPipeHandler.calculateHeadRotation ⟨0, 0, 0⟩ ⟨0, 0, 0⟩ ⟨0, 0, 0⟩
        ⟨1, 0, 0⟩ ⟨0, 0, 0⟩).roll = Real.pi ∧
    Real.pi ≠ 0 := by
  refine ⟨?_, Real.pi_ne_zero⟩
  show atan2 ((0 : ℝ) - 0) ((0 : ℝ) - 1) = Real.pi
  unfold atan2
  norm_num

/-- Claim C7, amended: if the two eye landmarks have equal y-coordinates and
the right-eye x-coordinate is at least the left-eye one, the extracted roll
is 0 (when rightEye.x < leftEye.x it is π instead). -/
theorem roll_zero_of_level_eyes (noseTip forehead chin leftEye rightEye : Vec3)
    (hy : rightEye.y = leftEye.y) (hx : leftEye.x ≤ rightEye.x) :
    (MediaPipeHandler.calculateHeadRotation noseTip forehead chin leftEye rightEye).roll
      = 0 := by
  show atan2 (rightEye.y - leftEye.y) (rightEye.x - leftEye.x) = 0
  rw [hy, sub_self]
  exact atan2_zero_left_of_nonneg _ (sub_nonneg.mpr hx)

/-- Witness for the amended C7 at level eyes with the right eye to the
right. -/
theorem roll_zero_of_level_eyes_witness :
    (Vec3.mk 1 0 0).y = (Vec3.mk 0 0 0).y ∧ (Vec3.mk 0 0 0).x ≤ (Vec3.mk 1 0 0).x ∧
    (MediaPipeHandler.calculateHeadRotation ⟨0, 0, 0⟩ ⟨0, 0, 0⟩ ⟨0, 0, 0⟩
        ⟨0, 0, 0⟩ ⟨1, 0, 0⟩).roll = 0 :=
  ⟨rfl, by norm_num,
    roll_zero_of_level_eyes ⟨0, 0, 0⟩ ⟨0, 0, 0⟩ ⟨0, 0, 0⟩ ⟨0, 0, 0⟩ ⟨1, 0, 0⟩
      rfl (by norm_num)⟩

end
